import Mathlib

/-!
Shallow embedding of the Polaris Hub client (polaris/hub/client.py):
the error-translation layer of the session, token refresh, the download
checks of get_dataset, the three-step dataset upload transaction, and the
conflict-resolution policy of the bulk Zarr chunk copy.
-/

namespace Polaris

/-- An HTTP response: its status code and its body. The body abstracts the
JSON payload of hub responses as an opaque string. -/
structure Response where
  status : Nat
  body : String
deriving DecidableEq

/-- httpx success predicate: 2xx status codes. `Response.raise_for_status`
raises exactly when this is false. -/
def Response.is_success (r : Response) : Bool :=
  decide (200 ≤ r.status ∧ r.status < 300)

/-- The error taxonomy surfaced by the client, from polaris/utils/errors.py
(PolarisHubError, PolarisUnauthorizedError, InvalidDatasetError) together
with the transport-level errors (httpx.HTTPStatusError carrying a status,
ssl.SSLCertVerificationError, httpx.ConnectError, ValueError). -/
inductive PolarisError where
  | invalidDatasetError (msg : String)
  | polarisHubError (msg : String)
  | polarisUnauthorizedError
  | httpStatusError (status : Nat)
  | sslCertVerificationError
  | connectError
  | valueError (msg : String)
deriving DecidableEq

/-- The outcome of the underlying authlib OAuth2Client.request call, as
observed by the PolarisHubClient.request wrapper: either a response is
returned (httpx does not raise on error statuses by itself), or one of the
exception kinds listed in the two except clauses escapes. -/
inductive TransportOutcome where
  | ok (r : Response)
  | connectErr (sslCertVerifyFailed : Bool)
  | missingTokenError
  | invalidTokenError
  | httpStatusError (status : Nat)
  | oauthError
deriving DecidableEq

/-- PolarisHubClient.request: wraps the base request method to handle errors.
A ConnectError whose text carries the SSL-verification code becomes
SSLCertVerificationError; MissingTokenError, InvalidTokenError and OAuthError
become PolarisUnauthorizedError; an HTTPStatusError becomes
PolarisUnauthorizedError only when its status is 401 and is re-raised
otherwise. An ordinary response is returned untouched. -/
def request (outcome : TransportOutcome) : Except PolarisError Response :=
  match outcome with
  | TransportOutcome.ok r => Except.ok r
  | TransportOutcome.connectErr ssl =>
      if ssl then Except.error PolarisError.sslCertVerificationError
      else Except.error PolarisError.connectError
  | TransportOutcome.missingTokenError => Except.error PolarisError.polarisUnauthorizedError
  | TransportOutcome.invalidTokenError => Except.error PolarisError.polarisUnauthorizedError
  | TransportOutcome.httpStatusError s =>
      if s ≠ 401 then Except.error (PolarisError.httpStatusError s)
      else Except.error PolarisError.polarisUnauthorizedError
  | TransportOutcome.oauthError => Except.error PolarisError.polarisUnauthorizedError

/-- Message template of the structured hub-request error raised by
PolarisHubClient._base_request_to_hub; the serialized error payload is
appended to it. -/
def hubErrorMsg : String :=
  "The request to the Polaris Hub failed. See the error message below for more details:\n"

/-- PolarisHubClient._base_request_to_hub, after the wrapped request returned
a response: raise_for_status raises on any non-2xx status; a raw 500 is
re-raised unmodified; any other non-2xx response has its JSON body serialized
into a PolarisHubError. On success the JSON body is returned. -/
def base_request_to_hub (r : Response) : Except PolarisError String :=
  if Response.is_success r then Except.ok r.body
  else if r.status = 500 then Except.error (PolarisError.httpStatusError r.status)
  else Except.error (PolarisError.polarisHubError (hubErrorMsg ++ r.body))

/-- _base_request_to_hub including the request wrapper: errors escaping the
wrapper propagate, a returned response goes through the status check. -/
def base_request_to_hub_full (outcome : TransportOutcome) : Except PolarisError String :=
  match request outcome with
  | Except.error e => Except.error e
  | Except.ok r => base_request_to_hub r

/-- The mutable token slot of the client session. -/
structure HubClientState where
  token : Option String
deriving DecidableEq

/-- Network-visible action performed during the token check. -/
inductive AuthEvent where
  | fetchToken
deriving DecidableEq

/-- PolarisHubClient.ensure_active_token. The booleans abstract the two
oracle calls of the source: superActive is super().ensure_active_token(token)
and externalActive is external_client.ensure_active_token(...); fetched is
the token returned by fetch_token(). The event list records whether a new
hub token was fetched. -/
def ensure_active_token (superActive externalActive : Bool) (fetched : String)
    (st : HubClientState) : Bool × HubClientState × List AuthEvent :=
  if superActive then (true, st, [])
  else if !externalActive then (false, st, [])
  else (true, ⟨some fetched⟩, [AuthEvent.fetchToken])

/-- The storage-response check of PolarisHubClient.get_dataset: the reply to
the tableContent request should be a 307 redirect with the signed URL; when
it is not, any raise_for_status failure is wrapped into a PolarisHubError. -/
def get_dataset_storage_check (storageResp : Response) : Except PolarisError Response :=
  if storageResp.status ≠ 307 then
    if Response.is_success storageResp then Except.ok storageResp
    else Except.error (PolarisError.polarisHubError "Could not get signed URL from Polaris Hub.")
  else Except.ok storageResp

/-- An outbound request as issued: its method and whether credentials were
withheld (auth=None in the source). -/
structure RequestRecord where
  method : String
  authNone : Bool
deriving DecidableEq

/-- PolarisHubClient._load_from_signed_url: a GET of the signed URL with
auth=None, then raise_for_status, then the content is handed to load_fn
(abstracted as returning the body). -/
def load_from_signed_url (resp : Response) : RequestRecord × Except PolarisError String :=
  (⟨"GET", true⟩,
    if Response.is_success resp then Except.ok resp.body
    else Except.error (PolarisError.httpStatusError resp.status))

/-- Local interactions performed by open_zarr_file once its guard passed:
constructing the PolarisFileSystem and opening the FSStore. -/
inductive ZarrOpenEvent where
  | fsConstruct
  | storeOpen
deriving DecidableEq

/-- Guard message of open_zarr_file. -/
def consolidatedModeMsg : String :=
  "Consolidated archives can only be used with r or r+ mode."

/-- PolarisHubClient.open_zarr_file: a consolidated open is only valid in r
or r+ mode, checked before the PolarisFileSystem is constructed; any failure
while opening the store (openOutcome) is wrapped into a PolarisHubError.
The boolean result records whether zarr.open_consolidated was used. -/
def open_zarr_file (mode : String) (as_consolidated : Bool)
    (openOutcome : Except PolarisError Unit) :
    Except PolarisError Bool × List ZarrOpenEvent :=
  if as_consolidated = true ∧ mode ≠ "r" ∧ mode ≠ "r+" then
    (Except.error (PolarisError.valueError consolidatedModeMsg), [])
  else
    match openOutcome with
    | Except.error _ =>
        (Except.error (PolarisError.polarisHubError "Error opening Zarr store"),
          [ZarrOpenEvent.fsConstruct, ZarrOpenEvent.storeOpen])
    | Except.ok _ =>
        (if (mode = "r" ∨ mode = "r+") ∧ as_consolidated = true then Except.ok true
          else Except.ok false,
          [ZarrOpenEvent.fsConstruct, ZarrOpenEvent.storeOpen])

/-- The fields of the dataset data model that the upload transaction
branches on: the license (checked before any network request) and whether
the dataset carries a chunked Zarr archive (dataset.uses_zarr). -/
structure Dataset where
  license : Option String
  usesZarr : Bool
deriving DecidableEq

/-- The process-wide settings object (PolarisHubSettings); the upload applies
a scoped override to its default_timeout. -/
structure Settings where
  default_timeout : Nat
deriving DecidableEq

/-- Observable steps of upload_dataset, in the order they are performed:
computing the parquet buffer with its size and md5 digest, reading the zarr
md5sum manifest while building the announce payload, the announce PUT, the
empty tabular PUT, the direct PUT of the buffered bytes to the signed bucket
URL (recording whether credentials were withheld), and the Zarr bulk copy
(recording the default_timeout in effect while it runs). -/
inductive UpEvent where
  | computeDigest
  | readZarrManifest
  | announcePut
  | tablePut
  | bucketPut (authNone : Bool)
  | zarrCopy (timeoutInEffect : Nat)
deriving DecidableEq

/-- The responses of the remote side during one upload: the outcome of the
announce request, of the empty tabular PUT, of the signed-bucket PUT, and of
the Zarr copy (open_zarr_file + consolidate + zarr.copy_store). -/
structure UploadEnv where
  announceOutcome : TransportOutcome
  hubOutcome : TransportOutcome
  bucketOutcome : TransportOutcome
  copyOutcome : Except PolarisError Unit

/-- Modelled from the spec: polaris.utils.context.tmp_attribute_change is
repository code not under src. Scoped override of settings.default_timeout:
capture the prior value, apply the new value, run the operation, and restore
the prior value on every exit path, success or failure. -/
def tmp_attribute_change (s : Settings) (newTimeout : Nat)
    (body : Settings → Except PolarisError Unit × List UpEvent) :
    Except PolarisError Unit × List UpEvent × Settings :=
  let prior := s.default_timeout
  let s1 : Settings := ⟨newTimeout⟩
  let r := body s1
  (r.1, r.2, ⟨prior⟩)

/-- Step 3 of upload_dataset: only if the dataset uses a Zarr archive, run
the bulk copy under a scoped default_timeout override; errors of the copy
propagate after the override is reverted. -/
def upload_step3 (d : Dataset) (timeout : Nat) (copyOutcome : Except PolarisError Unit)
    (s : Settings) (body : String) (ev : List UpEvent) :
    Except PolarisError String × List UpEvent × Settings :=
  if d.usesZarr then
    let r := tmp_attribute_change s timeout
      (fun s1 => (copyOutcome, [UpEvent.zarrCopy s1.default_timeout]))
    match r.1 with
    | Except.error e => (Except.error e, ev ++ r.2.1, r.2.2)
    | Except.ok _ => (Except.ok body, ev ++ r.2.1, r.2.2)
  else (Except.ok body, ev, s)

/-- Message of the InvalidDatasetError raised when no license is set. -/
def licenseMsg : String :=
  "Please specify a supported license for this dataset prior to uploading to the Polaris Hub."

/-- PolarisHubClient.upload_dataset: the license check comes first, before
any network request; then the parquet buffer with its size and digest is
computed, the announce payload (including the zarr md5sum manifest) is built
and PUT to the hub; then the empty tabular PUT, followed — on a 307
redirect — by a direct PUT of the buffered bytes to the signed URL with
auth=None; finally, only if the dataset uses Zarr, the bulk copy under a
scoped timeout override. -/
def upload_dataset (d : Dataset) (timeout : Option Nat) (env : UploadEnv) (s : Settings) :
    Except PolarisError String × List UpEvent × Settings :=
  if d.license = none then
    (Except.error (PolarisError.invalidDatasetError licenseMsg), [], s)
  else
    let t := timeout.getD s.default_timeout
    let ev1 : List UpEvent :=
      [UpEvent.computeDigest, UpEvent.readZarrManifest, UpEvent.announcePut]
    match base_request_to_hub_full env.announceOutcome with
    | Except.error e => (Except.error e, ev1, s)
    | Except.ok body =>
      let ev2 := ev1 ++ [UpEvent.tablePut]
      match request env.hubOutcome with
      | Except.error e => (Except.error e, ev2, s)
      | Except.ok hubResp =>
        if hubResp.status = 307 then
          let ev3 := ev2 ++ [UpEvent.bucketPut true]
          match request env.bucketOutcome with
          | Except.error e => (Except.error e, ev3, s)
          | Except.ok bucketResp =>
            if Response.is_success bucketResp then upload_step3 d t env.copyOutcome s body ev3
            else (Except.error (PolarisError.httpStatusError bucketResp.status), ev3, s)
        else
          if Response.is_success hubResp then upload_step3 d t env.copyOutcome s body ev2
          else (Except.error (PolarisError.httpStatusError hubResp.status), ev2, s)

/-- Whether the empty tabular PUT of step 2 came back as a 307 redirect. -/
def stepTwoRedirected (env : UploadEnv) : Bool :=
  match request env.hubOutcome with
  | Except.ok r => decide (r.status = 307)
  | Except.error _ => false

/-- The complete event sequence of a successful upload: digest and manifest
computation, announce, tabular PUT, the signed-bucket PUT when step 2
redirected, and the Zarr copy exactly when the dataset uses Zarr. -/
def uploadFullTrace (d : Dataset) (timeout : Option Nat) (env : UploadEnv) (s : Settings) :
    List UpEvent :=
  [UpEvent.computeDigest, UpEvent.readZarrManifest, UpEvent.announcePut, UpEvent.tablePut] ++
    (if stepTwoRedirected env then [UpEvent.bucketPut true] else []) ++
    (if d.usesZarr then [UpEvent.zarrCopy (timeout.getD s.default_timeout)] else [])

/-- Whether an upload event sends session credentials to a signed
destination: only a bucket PUT with credentials attached would. -/
def sendsCredentialsToSignedUrl : UpEvent → Bool
  | UpEvent.bucketPut authNone => !authNone
  | _ => false

/-- The bytes of one chunk of a chunked array store. -/
abbrev Chunk := List Nat

/-- A chunked array store as a finite map from chunk paths to chunk bytes,
represented as an association list without duplicate keys in practice. -/
abbrev Store := List (String × Chunk)

/-- Read a chunk from a store by path. -/
def Store.get : Store → String → Option Chunk
  | [], _ => none
  | (k, v) :: rest, key => if k = key then some v else Store.get rest key

/-- Write a chunk into a store at a path, overwriting an existing entry. -/
def Store.set : Store → String → Chunk → Store
  | [], key, val => [(key, val)]
  | (k, v) :: rest, key, val =>
      if k = key then (key, val) :: rest else (k, v) :: Store.set rest key val

/-- The per-conflict policy of the bulk copy, polaris type
ZarrConflictResolution: raise, replace or skip. -/
inductive ZarrConflictResolution where
  | raiseOnConflict
  | replace
  | skip
deriving DecidableEq

/-- Modelled from the spec: zarr.copy_store is external library code not
under src. The source chunks are copied in order into the destination; the
conflict policy applies to each chunk whose path already exists in the
destination: raiseOnConflict aborts the copy at the first conflict,
reporting the conflicting chunk path and leaving the destination as written
so far; replace overwrites unconditionally; skip leaves the existing
destination chunk untouched and proceeds. -/
def copy_store : List (String × Chunk) → Store → ZarrConflictResolution →
    Except (String × Store) Store
  | [], dest, _ => Except.ok dest
  | (k, v) :: rest, dest, pol =>
      match Store.get dest k with
      | some _ =>
          match pol with
          | ZarrConflictResolution.raiseOnConflict => Except.error (k, dest)
          | ZarrConflictResolution.replace => copy_store rest (Store.set dest k v) pol
          | ZarrConflictResolution.skip => copy_store rest dest pol
      | none => copy_store rest (Store.set dest k v) pol

/-- The destination after copying a conflict-free list of chunks into it. -/
def copyAll (src : List (String × Chunk)) (dest : Store) : Store :=
  src.foldl (fun d p => Store.set d p.1 p.2) dest

lemma Store.get_set_self (st : Store) (k : String) (v : Chunk) :
    Store.get (Store.set st k v) k = some v := by
  induction st with
  | nil => simp [Store.set, Store.get]
  | cons hd tl ih =>
      obtain ⟨k0, v0⟩ := hd
      by_cases h : k0 = k
      · simp [Store.set, Store.get, h]
      · simp [Store.set, Store.get, h, ih]

lemma Store.get_set_ne (st : Store) (k k' : String) (v : Chunk) (h : k ≠ k') :
    Store.get (Store.set st k v) k' = Store.get st k' := by
  induction st with
  | nil => simp [Store.set, Store.get, h]
  | cons hd tl ih =>
      obtain ⟨k0, v0⟩ := hd
      by_cases h0 : k0 = k
      · subst h0
        simp [Store.set, Store.get, h]
      · simp [Store.set, Store.get, h0, ih]

/-- A list of chunks whose paths are distinct and absent from the
destination copies without triggering the conflict policy. -/
lemma copy_store_append_fresh (pre rest : List (String × Chunk)) (dest : Store)
    (pol : ZarrConflictResolution) (hnodup : (pre.map Prod.fst).Nodup)
    (hfresh : ∀ p ∈ pre, Store.get dest p.1 = none) :
    copy_store (pre ++ rest) dest pol = copy_store rest (copyAll pre dest) pol := by
  induction pre generalizing dest with
  | nil => simp [copyAll]
  | cons hd tl ih =>
      obtain ⟨k0, v0⟩ := hd
      have h0 : Store.get dest k0 = none := hfresh (k0, v0) (by simp)
      have hn : (tl.map Prod.fst).Nodup := (List.nodup_cons.mp hnodup).2
      have hk0 : k0 ∉ tl.map Prod.fst := (List.nodup_cons.mp hnodup).1
      have hfresh' : ∀ p ∈ tl, Store.get (Store.set dest k0 v0) p.1 = none := by
        intro p hp
        have hne : k0 ≠ p.1 := by
          intro hcontra
          exact hk0 (hcontra ▸ List.mem_map_of_mem Prod.fst hp)
        rw [Store.get_set_ne dest k0 p.1 v0 hne]
        exact hfresh p (List.mem_cons_of_mem _ hp)
      simp only [List.cons_append, copy_store, h0, List.append_eq]
      rw [ih (Store.set dest k0 v0) hn hfresh']
      rfl

lemma copyAll_get_notmem (pre : List (String × Chunk)) (dest : Store) (k : String)
    (h : k ∉ pre.map Prod.fst) :
    Store.get (copyAll pre dest) k = Store.get dest k := by
  induction pre generalizing dest with
  | nil => rfl
  | cons hd tl ih =>
      obtain ⟨k0, v0⟩ := hd
      have hne : k0 ≠ k := by
        intro hcontra
        exact h (by simp [hcontra])
      have htl : k ∉ tl.map Prod.fst := by
        intro hcontra
        exact h (List.mem_cons_of_mem _ hcontra)
      show Store.get (copyAll tl (Store.set dest k0 v0)) k = Store.get dest k
      rw [ih (Store.set dest k0 v0) htl, Store.get_set_ne dest k0 k v0 hne]

/-- Under the skip policy the copy always completes and every chunk already
present in the destination keeps its original bytes. -/
lemma copy_store_skip_preserves (src : List (String × Chunk)) (dest : Store)
    (k : String) (w : Chunk) (h : Store.get dest k = some w) :
    ∃ d, copy_store src dest ZarrConflictResolution.skip = Except.ok d ∧
      Store.get d k = some w := by
  induction src generalizing dest with
  | nil => exact ⟨dest, rfl, h⟩
  | cons hd tl ih =>
      obtain ⟨k0, v0⟩ := hd
      cases hg : Store.get dest k0 with
      | some u =>
          simpa [copy_store, hg] using ih dest h
      | none =>
          have hne : k0 ≠ k := by
            intro hcontra
            rw [hcontra, h] at hg
            exact Option.noConfusion hg
          have h' : Store.get (Store.set dest k0 v0) k = some w := by
            rw [Store.get_set_ne dest k0 k v0 hne]
            exact h
          simpa [copy_store, hg] using ih (Store.set dest k0 v0) h'

/-- Under the replace policy the copy always completes and a chunk path
absent from the remaining source keeps its current bytes. -/
lemma copy_store_replace_preserves (src : List (String × Chunk)) (dest : Store)
    (k : String) (x : Option Chunk) (hk : k ∉ src.map Prod.fst)
    (h : Store.get dest k = x) :
    ∃ d, copy_store src dest ZarrConflictResolution.replace = Except.ok d ∧
      Store.get d k = x := by
  induction src generalizing dest with
  | nil => exact ⟨dest, rfl, h⟩
  | cons hd tl ih =>
      obtain ⟨k0, v0⟩ := hd
      have hne : k0 ≠ k := by
        intro hcontra
        exact hk (by simp [hcontra])
      have htl : k ∉ tl.map Prod.fst := by
        intro hcontra
        exact hk (List.mem_cons_of_mem _ hcontra)
      have h' : Store.get (Store.set dest k0 v0) k = x := by
        rw [Store.get_set_ne dest k0 k v0 hne]
        exact h
      cases hg : Store.get dest k0 with
      | some u => simpa [copy_store, hg] using ih (Store.set dest k0 v0) htl h'
      | none => simpa [copy_store, hg] using ih (Store.set dest k0 v0) htl h'

/-- Concrete upload environment used by witnesses: every remote step
succeeds and step 2 answers with a 307 redirect. -/
def envW : UploadEnv :=
  ⟨TransportOutcome.ok ⟨200, "x"⟩, TransportOutcome.ok ⟨307, "y"⟩,
    TransportOutcome.ok ⟨200, "z"⟩, Except.ok ()⟩

/-- Concrete dataset used by witnesses: licensed and Zarr-backed. -/
def dW : Dataset := ⟨some "MIT", true⟩

/-- C1: the claim states that a 401 response never raises the structured
hub-request error. Counterexample: a 401 response whose status check happens
in the hub-request helper is wrapped into PolarisHubError, not
PolarisUnauthorizedError. -/
theorem c1_hub_helper_401_counterexample :
    base_request_to_hub_full (TransportOutcome.ok ⟨401, "unauthorized"⟩) =
      Except.error (PolarisError.polarisHubError (hubErrorMsg ++ "unauthorized")) := rfl

/-- C1 (amended): a 401 failure observed as an exception inside the request
wrapper — an HTTPStatusError with status 401, a missing or invalid token, or
an OAuth error — raises PolarisUnauthorizedError; but a 401 response reaching
the hub-request helper's own status check is wrapped into PolarisHubError
carrying the serialized payload, like every other non-500 non-2xx response. -/
theorem c1_401_translation_amended (r : Response) (h : r.status = 401) :
    request (TransportOutcome.httpStatusError 401) =
        Except.error PolarisError.polarisUnauthorizedError ∧
    request TransportOutcome.missingTokenError =
        Except.error PolarisError.polarisUnauthorizedError ∧
    request TransportOutcome.invalidTokenError =
        Except.error PolarisError.polarisUnauthorizedError ∧
    request TransportOutcome.oauthError =
        Except.error PolarisError.polarisUnauthorizedError ∧
    base_request_to_hub r =
        Except.error (PolarisError.polarisHubError (hubErrorMsg ++ r.body)) := by
  refine ⟨rfl, rfl, rfl, rfl, ?_⟩
  have hs : Response.is_success r = false := by
    simp [Response.is_success, h]
  simp [base_request_to_hub, hs, h]

/-- C1 witness: the amended claim evaluated at a concrete 401 response. -/
theorem c1_401_translation_witness :
    base_request_to_hub ⟨401, "denied"⟩ =
      Except.error (PolarisError.polarisHubError (hubErrorMsg ++ "denied")) :=
  (c1_401_translation_amended ⟨401, "denied"⟩ rfl).2.2.2.2

/-- C2: for every non-2xx hub response, a raw 500 is re-raised unmodified as
the status error, and any other non-2xx status is wrapped into
PolarisHubError carrying the full serialized payload. -/
theorem c2_non_2xx_translation (r : Response) (hfail : Response.is_success r = false) :
    (r.status = 500 →
      base_request_to_hub r = Except.error (PolarisError.httpStatusError 500)) ∧
    (r.status ≠ 500 →
      base_request_to_hub r =
        Except.error (PolarisError.polarisHubError (hubErrorMsg ++ r.body))) := by
  constructor
  · intro h500
    simp [base_request_to_hub, hfail, h500]
  · intro hne
    simp [base_request_to_hub, hfail, hne]

/-- C2 witness: a 500 response passes through raw; a 404 response is wrapped
with its payload. -/
theorem c2_non_2xx_translation_witness :
    base_request_to_hub ⟨500, "oops"⟩ = Except.error (PolarisError.httpStatusError 500) ∧
    base_request_to_hub ⟨404, "missing"⟩ =
      Except.error (PolarisError.polarisHubError (hubErrorMsg ++ "missing")) :=
  ⟨(c2_non_2xx_translation ⟨500, "oops"⟩ rfl).1 rfl,
    (c2_non_2xx_translation ⟨404, "missing"⟩ rfl).2 (by decide)⟩

/-- C3: ensure_active_token returns true without further action when the hub
token is active; returns false when both the hub token and the external
identity token are inactive; and when only the identity token is active it
fetches a fresh hub token, installs it as the session token, and returns
true. -/
theorem c3_ensure_active_token_spec (superActive externalActive : Bool) (fetched : String)
    (st : HubClientState) :
    (superActive = true →
      ensure_active_token superActive externalActive fetched st = (true, st, [])) ∧
    (superActive = false → externalActive = false →
      ensure_active_token superActive externalActive fetched st = (false, st, [])) ∧
    (superActive = false → externalActive = true →
      ensure_active_token superActive externalActive fetched st =
        (true, ⟨some fetched⟩, [AuthEvent.fetchToken])) := by
  refine ⟨?_, ?_, ?_⟩ <;> intros <;> subst_vars <;> rfl

/-- C3 witness: an inactive hub token with an active identity token is
silently refreshed and installed. -/
theorem c3_ensure_active_token_witness :
    ensure_active_token false true "tok" ⟨none⟩ =
      (true, ⟨some "tok"⟩, [AuthEvent.fetchToken]) :=
  (c3_ensure_active_token_spec false true "tok" ⟨none⟩).2.2 rfl rfl

/-- C4: the digest and size computation and the manifest read precede the
announce PUT; the steps run strictly in the order announce, tabular transfer,
array transfer — every execution yields a prefix of the full trace, and a
successful upload yields exactly the full trace — and the array-transfer
step runs precisely when the dataset carries Zarr content. -/
theorem c4_upload_order (d : Dataset) (t : Option Nat) (env : UploadEnv) (s : Settings) :
    (∃ rest, (upload_dataset d t env s).2.1 ++ rest = uploadFullTrace d t env s) ∧
    (∀ b, (upload_dataset d t env s).1 = Except.ok b →
      (upload_dataset d t env s).2.1 = uploadFullTrace d t env s) := by
  by_cases hlic : d.license = none
  · constructor
    · exact ⟨uploadFullTrace d t env s, by simp [upload_dataset, hlic]⟩
    · intro b hb
      simp [upload_dataset, hlic] at hb
  · cases hA : base_request_to_hub_full env.announceOutcome with
    | error e =>
        constructor
        · refine ⟨UpEvent.tablePut ::
            ((if stepTwoRedirected env then [UpEvent.bucketPut true] else []) ++
              (if d.usesZarr then [UpEvent.zarrCopy (t.getD s.default_timeout)] else [])), ?_⟩
          simp [upload_dataset, hlic, hA, uploadFullTrace]
        · intro b hb
          simp [upload_dataset, hlic, hA] at hb
    | ok body =>
      cases hH : request env.hubOutcome with
      | error e =>
          have hred : stepTwoRedirected env = false := by
            simp [stepTwoRedirected, hH]
          constructor
          · refine ⟨(if d.usesZarr then [UpEvent.zarrCopy (t.getD s.default_timeout)]
              else []), ?_⟩
            simp [upload_dataset, hlic, hA, hH, uploadFullTrace, hred]
          · intro b hb
            simp [upload_dataset, hlic, hA, hH] at hb
      | ok hubResp =>
        by_cases h307 : hubResp.status = 307
        · have hred : stepTwoRedirected env = true := by
            simp [stepTwoRedirected, hH, h307]
          cases hB : request env.bucketOutcome with
          | error e =>
              constructor
              · refine ⟨(if d.usesZarr then [UpEvent.zarrCopy (t.getD s.default_timeout)]
                  else []), ?_⟩
                simp [upload_dataset, hlic, hA, hH, h307, hB, uploadFullTrace, hred]
              · intro b hb
                simp [upload_dataset, hlic, hA, hH, h307, hB] at hb
          | ok bucketResp =>
            by_cases hS : Response.is_success bucketResp = true
            · have htr : (upload_dataset d t env s).2.1 = uploadFullTrace d t env s := by
                cases hc : env.copyOutcome with
                | ok u =>
                    by_cases hz : d.usesZarr = true <;>
                      simp [upload_dataset, hlic, hA, hH, h307, hB, hS, upload_step3,
                        tmp_attribute_change, hc, hz, uploadFullTrace, hred]
                | error e =>
                    by_cases hz : d.usesZarr = true <;>
                      simp [upload_dataset, hlic, hA, hH, h307, hB, hS, upload_step3,
                        tmp_attribute_change, hc, hz, uploadFullTrace, hred]
              exact ⟨⟨[], by simp [htr]⟩, fun b hb => htr⟩
            · have hS' : Response.is_success bucketResp = false := by
                simpa using hS
              constructor
              · refine ⟨(if d.usesZarr then [UpEvent.zarrCopy (t.getD s.default_timeout)]
                  else []), ?_⟩
                simp [upload_dataset, hlic, hA, hH, h307, hB, hS', uploadFullTrace, hred]
              · intro b hb
                simp [upload_dataset, hlic, hA, hH, h307, hB, hS'] at hb
        · have hred : stepTwoRedirected env = false := by
            simp [stepTwoRedirected, hH, h307]
          by_cases hS : Response.is_success hubResp = true
          · have htr : (upload_dataset d t env s).2.1 = uploadFullTrace d t env s := by
              cases hc : env.copyOutcome with
              | ok u =>
                  by_cases hz : d.usesZarr = true <;>
                    simp [upload_dataset, hlic, hA, hH, h307, hS, upload_step3,
                      tmp_attribute_change, hc, hz, uploadFullTrace, hred]
              | error e =>
                  by_cases hz : d.usesZarr = true <;>
                    simp [upload_dataset, hlic, hA, hH, h307, hS, upload_step3,
                      tmp_attribute_change, hc, hz, uploadFullTrace, hred]
            exact ⟨⟨[], by simp [htr]⟩, fun b hb => htr⟩
          · have hS' : Response.is_success hubResp = false := by
              simpa using hS
            constructor
            · refine ⟨(if d.usesZarr then [UpEvent.zarrCopy (t.getD s.default_timeout)]
                else []), ?_⟩
              simp [upload_dataset, hlic, hA, hH, h307, hS', uploadFullTrace, hred]
            · intro b hb
              simp [upload_dataset, hlic, hA, hH, h307, hS'] at hb

/-- C4 witness: a fully successful Zarr-backed upload produces exactly the
full ordered trace. -/
theorem c4_upload_order_witness :
    (upload_dataset dW none envW ⟨100⟩).2.1 = uploadFullTrace dW none envW ⟨100⟩ :=
  (c4_upload_order dW none envW ⟨100⟩).2 "x" rfl

/-- C6: the session default timeout is restored to its prior value on every
exit path of upload_dataset, success or failure, after the scoped override
applied for the array-transfer step. -/
theorem c6_timeout_restored (d : Dataset) (t : Option Nat) (env : UploadEnv) (s : Settings) :
    (upload_dataset d t env s).2.2 = s := by
  by_cases hlic : d.license = none
  · simp [upload_dataset, hlic]
  · cases hA : base_request_to_hub_full env.announceOutcome with
    | error e => simp [upload_dataset, hlic, hA]
    | ok body =>
      cases hH : request env.hubOutcome with
      | error e => simp [upload_dataset, hlic, hA, hH]
      | ok hubResp =>
        have hstep : ∀ ev b,
            (upload_step3 d (t.getD s.default_timeout) env.copyOutcome s b ev).2.2 = s := by
          intro ev b
          cases hc : env.copyOutcome <;> by_cases hz : d.usesZarr = true <;>
            simp [upload_step3, tmp_attribute_change, hc, hz]
        by_cases h307 : hubResp.status = 307
        · cases hB : request env.bucketOutcome with
          | error e => simp [upload_dataset, hlic, hA, hH, h307, hB]
          | ok bucketResp =>
            by_cases hS : Response.is_success bucketResp = true
            · simp [upload_dataset, hlic, hA, hH, h307, hB, hS, hstep]
            · have hS' : Response.is_success bucketResp = false := by simpa using hS
              simp [upload_dataset, hlic, hA, hH, h307, hB, hS']
        · by_cases hS : Response.is_success hubResp = true
          · simp [upload_dataset, hlic, hA, hH, h307, hS, hstep]
          · have hS' : Response.is_success hubResp = false := by simpa using hS
            simp [upload_dataset, hlic, hA, hH, h307, hS']

/-- C7: signed URLs are always followed with session credentials withheld —
no event of any upload trace sends credentials to the signed destination, and
the signed-URL GET of the download path is issued with auth=None. -/
theorem c7_signed_url_no_credentials (d : Dataset) (t : Option Nat) (env : UploadEnv)
    (s : Settings) (resp : Response) :
    (upload_dataset d t env s).2.1.all (fun e => !sendsCredentialsToSignedUrl e) = true ∧
    (load_from_signed_url resp).1.authNone = true := by
  refine ⟨?_, rfl⟩
  have hstep : ∀ ev b, ev.all (fun e => !sendsCredentialsToSignedUrl e) = true →
      ((upload_step3 d (t.getD s.default_timeout) env.copyOutcome s b ev).2.1).all
        (fun e => !sendsCredentialsToSignedUrl e) = true := by
    intro ev b hev
    cases hc : env.copyOutcome <;> by_cases hz : d.usesZarr = true <;>
      simp_all [upload_step3, tmp_attribute_change, sendsCredentialsToSignedUrl]
  by_cases hlic : d.license = none
  · simp [upload_dataset, hlic]
  · cases hA : base_request_to_hub_full env.announceOutcome with
    | error e => simp [upload_dataset, hlic, hA, sendsCredentialsToSignedUrl]
    | ok body =>
      cases hH : request env.hubOutcome with
      | error e => simp [upload_dataset, hlic, hA, hH, sendsCredentialsToSignedUrl]
      | ok hubResp =>
        by_cases h307 : hubResp.status = 307
        · cases hB : request env.bucketOutcome with
          | error e => simp [upload_dataset, hlic, hA, hH, h307, hB, sendsCredentialsToSignedUrl]
          | ok bucketResp =>
            by_cases hS : Response.is_success bucketResp = true
            · have h := hstep
                [UpEvent.computeDigest, UpEvent.readZarrManifest, UpEvent.announcePut,
                  UpEvent.tablePut, UpEvent.bucketPut true] body
                (by simp [sendsCredentialsToSignedUrl])
              simpa [upload_dataset, hlic, hA, hH, h307, hB, hS] using h
            · have hS' : Response.is_success bucketResp = false := by simpa using hS
              simp [upload_dataset, hlic, hA, hH, h307, hB, hS', sendsCredentialsToSignedUrl]
        · by_cases hS : Response.is_success hubResp = true
          · have h := hstep
              [UpEvent.computeDigest, UpEvent.readZarrManifest, UpEvent.announcePut,
                UpEvent.tablePut] body
              (by simp [sendsCredentialsToSignedUrl])
            simpa [upload_dataset, hlic, hA, hH, h307, hS] using h
          · have hS' : Response.is_success hubResp = false := by simpa using hS
            simp [upload_dataset, hlic, hA, hH, h307, hS', sendsCredentialsToSignedUrl]

/-- C10: a dataset without a license is rejected with InvalidDatasetError
before any network request — the event trace is empty and the settings are
untouched. -/
theorem c10_license_required (d : Dataset) (t : Option Nat) (env : UploadEnv) (s : Settings)
    (h : d.license = none) :
    upload_dataset d t env s =
      (Except.error (PolarisError.invalidDatasetError licenseMsg), [], s) := by
  simp [upload_dataset, h]

/-- C10 witness: an unlicensed Zarr-backed dataset is rejected up front. -/
theorem c10_license_required_witness :
    upload_dataset ⟨none, true⟩ none envW ⟨100⟩ =
      (Except.error (PolarisError.invalidDatasetError licenseMsg), [], ⟨100⟩) :=
  c10_license_required ⟨none, true⟩ none envW ⟨100⟩ rfl

/-- C5: with one pre-existing destination chunk at path k (bytes w) that
differs from the source bytes v, and the other source chunk paths distinct
and fresh, the skip policy completes and leaves that destination chunk
byte-unchanged; the replace policy completes and makes it byte-identical to
the source; and the raise policy aborts at the conflicting chunk, reporting
its path, having copied exactly the chunks that preceded it. -/
theorem c5_conflict_policy (pre post : List (String × Chunk)) (k : String)
    (v w : Chunk) (dest : Store)
    (hnodup : ((pre ++ (k, v) :: post).map Prod.fst).Nodup)
    (hfresh : ∀ p ∈ pre, Store.get dest p.1 = none)
    (hk : Store.get dest k = some w) (hdiff : v ≠ w) :
    (∃ d, copy_store (pre ++ (k, v) :: post) dest ZarrConflictResolution.skip =
        Except.ok d ∧ Store.get d k = some w) ∧
    (∃ d, copy_store (pre ++ (k, v) :: post) dest ZarrConflictResolution.replace =
        Except.ok d ∧ Store.get d k = some v) ∧
    copy_store (pre ++ (k, v) :: post) dest ZarrConflictResolution.raiseOnConflict =
      Except.error (k, copyAll pre dest) := by
  have hmap : (pre ++ (k, v) :: post).map Prod.fst =
      pre.map Prod.fst ++ k :: post.map Prod.fst := by simp
  rw [hmap] at hnodup
  have hpre_nodup : (pre.map Prod.fst).Nodup := hnodup.of_append_left
  have hdisj := List.disjoint_of_nodup_append hnodup
  have hkpre : k ∉ pre.map Prod.fst := fun hmem => hdisj hmem (by simp)
  have hcons : (k :: post.map Prod.fst).Nodup := hnodup.of_append_right
  have hkpost : k ∉ post.map Prod.fst := (List.nodup_cons.mp hcons).1
  have hget : Store.get (copyAll pre dest) k = some w := by
    rw [copyAll_get_notmem pre dest k hkpre]
    exact hk
  refine ⟨?_, ?_, ?_⟩
  · rw [copy_store_append_fresh pre ((k, v) :: post) dest _ hpre_nodup hfresh]
    have hred : copy_store ((k, v) :: post) (copyAll pre dest) ZarrConflictResolution.skip =
        copy_store post (copyAll pre dest) ZarrConflictResolution.skip := by
      simp [copy_store, hget]
    rw [hred]
    exact copy_store_skip_preserves post (copyAll pre dest) k w hget
  · rw [copy_store_append_fresh pre ((k, v) :: post) dest _ hpre_nodup hfresh]
    have hred : copy_store ((k, v) :: post) (copyAll pre dest) ZarrConflictResolution.replace =
        copy_store post (Store.set (copyAll pre dest) k v) ZarrConflictResolution.replace := by
      simp [copy_store, hget]
    rw [hred]
    exact copy_store_replace_preserves post (Store.set (copyAll pre dest) k v) k (some v)
      hkpost (Store.get_set_self _ k v)
  · rw [copy_store_append_fresh pre ((k, v) :: post) dest _ hpre_nodup hfresh]
    simp [copy_store, hget]

/-- C5 witness: a three-chunk source against a destination holding a
different version of the middle chunk; under skip that chunk keeps its
original bytes. -/
theorem c5_conflict_policy_witness :
    ∃ d, copy_store ([("a", [1])] ++ ("b", [2]) :: [("c", [3])]) [("b", [9])]
        ZarrConflictResolution.skip = Except.ok d ∧ Store.get d "b" = some [9] :=
  (c5_conflict_policy [("a", [1])] [("c", [3])] "b" [2] [9] [("b", [9])]
    (by decide) (by decide) (by decide) (by decide)).1

/-- C8: requesting the consolidated-metadata optimization with a mode other
than r or r+ raises the configuration ValueError before the filesystem is
constructed or the store opened — the interaction trace is empty. -/
theorem c8_consolidated_mode_guard (mode : String) (oc : Except PolarisError Unit)
    (h1 : mode ≠ "r") (h2 : mode ≠ "r+") :
    open_zarr_file mode true oc =
      (Except.error (PolarisError.valueError consolidatedModeMsg), []) := by
  simp [open_zarr_file, h1, h2]

/-- C8 witness: write mode with the consolidated optimization is rejected
up front. -/
theorem c8_consolidated_mode_guard_witness :
    open_zarr_file "w" true (Except.ok ()) =
      (Except.error (PolarisError.valueError consolidatedModeMsg), []) :=
  c8_consolidated_mode_guard "w" (Except.ok ()) (by decide) (by decide)

/-- C9: during download, a tabular-content response that is not a 307
redirect and not successful is surfaced as PolarisHubError. -/
theorem c9_download_non_redirect (r : Response) (h307 : r.status ≠ 307)
    (hfail : Response.is_success r = false) :
    get_dataset_storage_check r =
      Except.error
        (PolarisError.polarisHubError "Could not get signed URL from Polaris Hub.") := by
  simp [get_dataset_storage_check, h307, hfail]

/-- C9 witness: a 404 storage response fails the download with the
hub-request error. -/
theorem c9_download_non_redirect_witness :
    get_dataset_storage_check ⟨404, "nope"⟩ =
      Except.error
        (PolarisError.polarisHubError "Could not get signed URL from Polaris Hub.") :=
  c9_download_non_redirect ⟨404, "nope"⟩ (by decide) rfl

end Polaris
